import Mathlib

set_option maxHeartbeats 1000000

/-!
Shallow embedding of the two scripts of MultiFormatTranscriber
(src/transcriber.py and src/whisper_transcriber.py).

External effects (filesystem, the ffmpeg subprocess, the whisper model) are
modelled by an explicit `World` state threaded through the functions, plus a
trace of `Event`s recording the externally visible actions (timestamped
console reports, converter invocations, model invocations, file writes).
-/

/-- Last index at which character c occurs in l (models Python str.rfind for a
single character, returning none instead of -1 when absent). -/
def lastIdxOf (c : Char) (l : List Char) : Option Nat :=
  l.enum.foldl (fun acc p => if p.2 = c then some p.1 else acc) none

/-- Models os.path.splitext (genericpath with the posix separator): the
extension starts at the last dot, unless every character of the basename
before that dot is itself a dot, in which case there is no extension. -/
def splitext (p : String) : String × String :=
  let l := p.data
  match lastIdxOf '.' l with
  | none => (p, "")
  | some d =>
    let sep : Nat :=
      match lastIdxOf '/' l with
      | some s => s + 1
      | none => 0
    if sep ≤ d ∧ ((List.range' sep (d - sep)).any (fun i => !(l.getD i '.' == '.'))) then
      (⟨l.take d⟩, ⟨l.drop d⟩)
    else (p, "")

/-- Models os.path.join (posixpath.join) for two components. -/
def joinPath (a b : String) : String :=
  if b.data.head? == some '/' then b
  else if a == "" || a.data.getLast? == some '/' then a ++ b
  else a ++ "/" ++ b

/-- Models str.lower character by character; the extensions compared with it
are ASCII, where Python lowercasing and Char.toLower agree. -/
def lowerStr (s : String) : String :=
  ⟨s.data.map Char.toLower⟩

/-- Numeric value of a digit run, as Python int() computes it on the
captured group. -/
def digitsVal (l : List Char) : Nat :=
  l.foldl (fun acc c => 10 * acc + (c.toNat - ('0').toNat)) 0

/-- One attempt to match the regular expression of extract_number, a
parenthesized run of digits, at the head of the character list. The digit
class is modelled as the ASCII digits. -/
def matchParenNum (l : List Char) : Option Nat :=
  match l with
  | '(' :: rest =>
    let ds := rest.takeWhile Char.isDigit
    if ds.isEmpty then none
    else
      match rest.dropWhile Char.isDigit with
      | ')' :: _ => some (digitsVal ds)
      | _ => none
  | _ => none

/-- Models re.search over the whole string: the leftmost position at which
the pattern matches wins. -/
def searchParenNum : List Char → Option Nat
  | [] => none
  | c :: cs =>
    match matchParenNum (c :: cs) with
    | some n => some n
    | none => searchParenNum cs

/-- Externally visible actions of a run. Constructors carrying a report
(convertDone, convertError, skipConversion, transcribeDone, transcribeError,
skipUnsupported) model the timestamped console prints of the scripts. -/
inductive Event where
  | startFile (file : String)
  | loadModel (modelName device : String)
  | convertCall (inputPath outputPath : String)
  | convertDone (inputPath outputPath : String)
  | convertError (inputPath err : String)
  | skipConversion (file : String)
  | transcribeCall (path language : String)
  | writeTxt (path text : String)
  | transcribeDone (file : String)
  | transcribeError (file err : String)
  | skipUnsupported (file : String)
  deriving DecidableEq, Repr

/-- State of the outside world as the scripts observe it: the directory
listing of the input folder (os.listdir), the set of existing regular files
with their contents, the two stat times, the exit status the converter
subprocess would return for a given invocation, and the text or error the
whisper model would return for a given path and language. -/
structure World where
  listing : List String
  fsFiles : List (String × String)
  ctime : String → Nat
  mtime : String → Nat
  convertOk : String → String → Bool
  transcribeRes : String → String → Except String String

/-- Models os.path.exists for the paths the scripts test (all regular files). -/
def World.existsPath (w : World) (p : String) : Bool :=
  w.fsFiles.any (fun q => q.1 == p)

/-- Models os.path.isfile: only regular files are recorded in fsFiles. -/
def World.isfile (w : World) (p : String) : Bool :=
  w.existsPath p

/-- Models open(p, "w") followed by a write: creates or truncates, so any
previous content at p is replaced. -/
def World.writeFile (w : World) (p t : String) : World :=
  { w with fsFiles := (p, t) :: w.fsFiles.filter (fun q => !(q.1 == p)) }

/-- A successful converter run creates its output file. -/
def World.createFile (w : World) (p : String) : World :=
  w.writeFile p ""

/-- Content of the file at p, if it exists. -/
def World.getContent (w : World) (p : String) : Option String :=
  (w.fsFiles.find? (fun q => q.1 == p)).map (fun q => q.2)

/-- Files announced on the console by the per-file header print, in order. -/
def startedFiles (evs : List Event) : List String :=
  evs.filterMap fun e =>
    match e with
    | Event.startFile f => some f
    | _ => none

/-- Number of whisper.load_model invocations in a trace. -/
def loadCount (evs : List Event) : Nat :=
  (evs.filterMap fun e =>
    match e with
    | Event.loadModel m d => some (m, d)
    | _ => none).length

/-- Converter invocations in a trace, as (input, output) pairs. -/
def convertCalls (evs : List Event) : List (String × String) :=
  evs.filterMap fun e =>
    match e with
    | Event.convertCall i o => some (i, o)
    | _ => none

/-- Timestamped conversion-failure reports in a trace. -/
def convertErrors (evs : List Event) : List (String × String) :=
  evs.filterMap fun e =>
    match e with
    | Event.convertError i m => some (i, m)
    | _ => none

/-- Model invocations in a trace, as (path, language) pairs. -/
def transcribeCalls (evs : List Event) : List (String × String) :=
  evs.filterMap fun e =>
    match e with
    | Event.transcribeCall p l => some (p, l)
    | _ => none

/-- Derived output path: the output directory joined with the input stem plus
the txt suffix (transcriber.py line 192, whisper_transcriber.py line 108). -/
def txtPath (out_path file : String) : String :=
  joinPath out_path ((splitext file).1 ++ ".txt")

namespace Transcriber

/-- Supported extensions (transcriber.py line 12). -/
def EXTENSIONS_SUPPORTED : List String :=
  [".mp3", ".mp4", ".mpeg", ".mpg", ".mpga", ".m4a", ".wav", ".webm", ".mkv",
   ".avi", ".flv", ".mov", ".wmv", ".3gp", ".3g2", ".vob", ".flac", ".aac",
   ".ogg", ".wma", ".ac3", ".dts", ".mmf", ".m4r", ".mp2", ".wv", ".asf",
   ".f4v", ".m2ts", ".mts", ".rm", ".rmvb", ".swf", ".wtv"]

/-- Extensions requiring conversion to mp3 (transcriber.py line 19). -/
def EXTENSIONS_REQUIRING_CONVERSION : List String :=
  [".mkv", ".avi", ".flv", ".mov", ".wmv", ".3gp", ".3g2", ".vob", ".flac",
   ".aac", ".ogg", ".wma", ".ac3", ".dts", ".mmf", ".m4r", ".mp2", ".wv",
   ".asf", ".f4v", ".m2ts", ".mts", ".rm", ".rmvb", ".swf", ".wtv"]

/-- Models get_device (transcriber.py lines 22-28); the availability of a
CUDA-compatible GPU, queried from torch, is the Boolean argument. -/
def get_device (cuda_available : Bool) : String :=
  if cuda_available then "cuda" else "cpu"

/-- Models extract_number (transcriber.py lines 118-135). -/
def extract_number (filename : String) : Option Nat :=
  searchParenNum filename.data

/-- Models convert_to_mp3 (transcriber.py lines 138-164). The subprocess runs
with check enabled, so a nonzero exit status raises CalledProcessError, which
the function catches and reports; on success the output file is created and a
completion line is printed. No exception escapes the function. -/
def convert_to_mp3 (w : World) (input_path output_path : String) : World × List Event :=
  if w.convertOk input_path output_path then
    (w.createFile output_path,
     [Event.convertCall input_path output_path,
      Event.convertDone input_path output_path])
  else
    (w, [Event.convertCall input_path output_path,
         Event.convertError input_path ("CalledProcessError")])

/-- Models transcribe_single_file (transcriber.py lines 167-220). The loaded
model instance passed as first argument in the source is represented by the
transcribeRes oracle of the World; no load happens here. The transcription
call uses the potentially converted file_path (line 210). -/
def transcribe_single_file (w : World) (file in_path out_path language : String) :
    World × List Event :=
  let file_path := joinPath in_path file
  let file_extension := (splitext file).2
  let txt_path := txtPath out_path file
  if EXTENSIONS_SUPPORTED.contains (lowerStr file_extension) then
    let step : World × String × List Event :=
      if EXTENSIONS_REQUIRING_CONVERSION.contains (lowerStr file_extension) then
        let mp3_path := joinPath in_path ((splitext file).1 ++ ".mp3")
        if !(w.existsPath mp3_path) then
          let r := convert_to_mp3 w file_path mp3_path
          (r.1, mp3_path, r.2)
        else (w, mp3_path, [Event.skipConversion file])
      else (w, file_path, [])
    let w1 := step.1
    let fpath := step.2.1
    let ev1 := step.2.2
    match w1.transcribeRes fpath language with
    | Except.ok text =>
      (w1.writeFile txt_path text,
       Event.startFile file :: ev1 ++
         [Event.transcribeCall fpath language,
          Event.writeTxt txt_path text,
          Event.transcribeDone file])
    | Except.error msg =>
      (w1,
       Event.startFile file :: ev1 ++
         [Event.transcribeCall fpath language,
          Event.transcribeError file msg])
  else
    (w, [Event.startFile file, Event.skipUnsupported file])

/-- Models the dispatch loop of transcribe_multiple_files
(transcriber.py lines 261-262). -/
def processFiles (w : World) (files : List String) (in_path out_path language : String) :
    World × List Event :=
  match files with
  | [] => (w, [])
  | f :: rest =>
    let r := transcribe_single_file w f in_path out_path language
    let r2 := processFiles r.1 rest in_path out_path language
    (r2.1, r.2 ++ r2.2)

/-- Models the listing filter of transcribe_multiple_files
(transcriber.py lines 244-246): keep the entries that are regular files and
whose lowercased extension is in the supported list. -/
def filteredFiles (w : World) (in_path : String) : List String :=
  w.listing.filter fun f =>
    w.isfile (joinPath in_path f) &&
      EXTENSIONS_SUPPORTED.contains (lowerStr (splitext f).2)

/-- Sort key of ordering criterion 5 (transcriber.py line 259): the extracted
number, or the positive-infinity sentinel when there is none. -/
def sortKey5 (x : String) : WithTop Nat :=
  match extract_number x with
  | some n => (n : WithTop Nat)
  | none => ⊤

/-- The sort performed under ordering criterion 5 (transcriber.py line 259).
Python list.sort is a stable sort ascending by key; mergeSort with the
key-ordering comparator is such a sort. -/
def sortCriterion5 (files : List String) : List String :=
  files.mergeSort (fun a b => decide (sortKey5 a ≤ sortKey5 b))

/-- Models the ordering step of transcribe_multiple_files
(transcriber.py lines 248-259). Python list.sort with reverse set is a
stable descending sort, implemented as reverse, ascending sort, reverse. -/
def orderedFiles (w : World) (in_path order_criterion : String) : List String :=
  let files := filteredFiles w in_path
  if order_criterion == "1" then
    files.mergeSort (fun a b =>
      decide (w.ctime (joinPath in_path a) ≤ w.ctime (joinPath in_path b)))
  else if order_criterion == "2" then
    (files.reverse.mergeSort (fun a b =>
      decide (w.ctime (joinPath in_path a) ≤ w.ctime (joinPath in_path b)))).reverse
  else if order_criterion == "3" then
    files.mergeSort (fun a b =>
      decide (w.mtime (joinPath in_path a) ≤ w.mtime (joinPath in_path b)))
  else if order_criterion == "4" then
    (files.reverse.mergeSort (fun a b =>
      decide (w.mtime (joinPath in_path a) ≤ w.mtime (joinPath in_path b)))).reverse
  else if order_criterion == "5" then
    sortCriterion5 files
  else
    files

/-- Models transcribe_multiple_files (transcriber.py lines 223-262). -/
def transcribe_multiple_files (w : World) (in_path out_path language order_criterion : String) :
    World × List Event :=
  processFiles w (orderedFiles w in_path order_criterion) in_path out_path language

/-- Models the device selection of main (transcriber.py lines 271-277):
start from get_device, then force cpu when the user answered N. -/
def deviceAfterChoice (cuda_available : Bool) (answ : String) : String :=
  let device := get_device cuda_available
  if answ == "N" then "cpu" else device

/-- Models the directory branch of main after the interactive prompts
(transcriber.py lines 271-312): select the device, load the model once
(line 284), then dispatch over the folder. -/
def main_batch (w : World) (cuda_available : Bool)
    (answ model_name in_path language out_path order_criterion : String) :
    World × List Event :=
  let device := deviceAfterChoice cuda_available answ
  let r := transcribe_multiple_files w in_path out_path language order_criterion
  (r.1, Event.loadModel model_name device :: r.2)

end Transcriber

namespace WhisperTranscriber

/-- Supported extensions (whisper_transcriber.py line 11). -/
def extensions : List String :=
  [".mp3", ".mp4", ".mpeg", ".mpg", ".mpga", ".m4a", ".wav", ".webm", ".mkv",
   ".avi", ".flv", ".mov", ".wmv", ".3gp", ".3g2", ".vob", ".flac", ".aac",
   ".ogg", ".wma", ".ac3", ".dts", ".mmf", ".m4r", ".mp2", ".wv", ".asf",
   ".f4v", ".m2ts", ".mts", ".rm", ".rmvb", ".swf", ".wtv"]

/-- Extensions that are converted to mp3, the local list of
transcribe_single_file (whisper_transcriber.py line 111). -/
def unsupported_extensions : List String :=
  [".mkv", ".avi", ".flv", ".mov", ".wmv", ".3gp", ".3g2", ".vob", ".flac",
   ".aac", ".ogg", ".wma", ".ac3", ".dts", ".mmf", ".m4r", ".mp2", ".wv",
   ".asf", ".f4v", ".m2ts", ".mts", ".rm", ".rmvb", ".swf", ".wtv"]

/-- Models get_device (whisper_transcriber.py lines 14-15). -/
def get_device (cuda_available : Bool) : String :=
  if cuda_available then "cuda" else "cpu"

/-- Models extract_number (whisper_transcriber.py lines 68-77). -/
def extract_number (string : String) : Option Nat :=
  searchParenNum string.data

/-- Models convert_to_mp3 (whisper_transcriber.py lines 80-96). The
subprocess runs without check, so a nonzero exit status does not raise
CalledProcessError and the except branch is never taken: the completion line
is printed whether the converter succeeded or failed, and no failure report
is ever produced. -/
def convert_to_mp3 (w : World) (input_path output_path : String) : World × List Event :=
  let w1 := if w.convertOk input_path output_path then w.createFile output_path else w
  (w1, [Event.convertCall input_path output_path,
        Event.convertDone input_path output_path])

/-- Models transcribe_single_file (whisper_transcriber.py lines 99-139). The
model is loaded inside the function (line 103), once per call. Note line
128: file_path is reassigned to the original input path right before the
transcription call, so the model is invoked on the original path even when a
conversion was performed. -/
def transcribe_single_file (w : World) (model_name device file in_path out_path language : String) :
    World × List Event :=
  let file_path := joinPath in_path file
  let file_extension := (splitext file).2
  let txt_path := txtPath out_path file
  if extensions.contains (lowerStr file_extension) then
    let step : World × String × List Event :=
      if unsupported_extensions.contains (lowerStr file_extension) then
        let mp3_path := joinPath in_path ((splitext file).1 ++ ".mp3")
        if !(w.existsPath mp3_path) then
          let r := convert_to_mp3 w file_path mp3_path
          (r.1, mp3_path, r.2)
        else (w, mp3_path, [Event.skipConversion file])
      else (w, file_path, [])
    let w1 := step.1
    let ev1 := step.2.2
    match w1.transcribeRes (joinPath in_path file) language with
    | Except.ok text =>
      (w1.writeFile txt_path text,
       Event.startFile file :: Event.loadModel model_name device :: ev1 ++
         [Event.transcribeCall (joinPath in_path file) language,
          Event.writeTxt txt_path text,
          Event.transcribeDone file])
    | Except.error msg =>
      (w1,
       Event.startFile file :: Event.loadModel model_name device :: ev1 ++
         [Event.transcribeCall (joinPath in_path file) language,
          Event.transcribeError file msg])
  else
    (w, [Event.startFile file, Event.loadModel model_name device,
         Event.skipUnsupported file])

/-- Models the dispatch loop of transcribe_multiple_files
(whisper_transcriber.py lines 162-163). -/
def processFiles (w : World) (files : List String)
    (model_name device in_path out_path language : String) :
    World × List Event :=
  match files with
  | [] => (w, [])
  | f :: rest =>
    let r := transcribe_single_file w model_name device f in_path out_path language
    let r2 := processFiles r.1 rest model_name device in_path out_path language
    (r2.1, r.2 ++ r2.2)

/-- Models the listing filter of transcribe_multiple_files
(whisper_transcriber.py lines 145-147). -/
def filteredFiles (w : World) (in_path : String) : List String :=
  w.listing.filter fun f =>
    w.isfile (joinPath in_path f) &&
      extensions.contains (lowerStr (splitext f).2)

/-- Sort key of ordering criterion 5 (whisper_transcriber.py line 160). -/
def sortKey5 (x : String) : WithTop Nat :=
  match extract_number x with
  | some n => (n : WithTop Nat)
  | none => ⊤

/-- The sort performed under ordering criterion 5
(whisper_transcriber.py line 160). -/
def sortCriterion5 (files : List String) : List String :=
  files.mergeSort (fun a b => decide (sortKey5 a ≤ sortKey5 b))

/-- Models the ordering step of transcribe_multiple_files
(whisper_transcriber.py lines 150-160). -/
def orderedFiles (w : World) (in_path order_criterion : String) : List String :=
  let files := filteredFiles w in_path
  if order_criterion == "1" then
    files.mergeSort (fun a b =>
      decide (w.ctime (joinPath in_path a) ≤ w.ctime (joinPath in_path b)))
  else if order_criterion == "2" then
    (files.reverse.mergeSort (fun a b =>
      decide (w.ctime (joinPath in_path a) ≤ w.ctime (joinPath in_path b)))).reverse
  else if order_criterion == "3" then
    files.mergeSort (fun a b =>
      decide (w.mtime (joinPath in_path a) ≤ w.mtime (joinPath in_path b)))
  else if order_criterion == "4" then
    (files.reverse.mergeSort (fun a b =>
      decide (w.mtime (joinPath in_path a) ≤ w.mtime (joinPath in_path b)))).reverse
  else if order_criterion == "5" then
    sortCriterion5 files
  else
    files

/-- Models transcribe_multiple_files (whisper_transcriber.py lines 142-163). -/
def transcribe_multiple_files (w : World)
    (model_name device in_path out_path language order_criterion : String) :
    World × List Event :=
  processFiles w (orderedFiles w in_path order_criterion)
    model_name device in_path out_path language

/-- Models the device selection of main (whisper_transcriber.py lines 167-173). -/
def deviceAfterChoice (cuda_available : Bool) (answ : String) : String :=
  let device := get_device cuda_available
  if answ == "N" then "cpu" else device

/-- Models the directory branch of main after the interactive prompts
(whisper_transcriber.py lines 166-203): select the device and dispatch; no
model load happens in main, each per-file call loads the model itself. -/
def main_batch (w : World) (cuda_available : Bool)
    (answ model_name in_path language out_path order_criterion : String) :
    World × List Event :=
  let device := deviceAfterChoice cuda_available answ
  transcribe_multiple_files w model_name device in_path out_path language order_criterion

end WhisperTranscriber

/-- Path handed to the transcription model by transcriber.py for a supported
file: the derived mp3 sibling when the extension requires conversion
(line 203 keeps the reassignment file_path = mp3_path), the original joined
path otherwise. -/
def Transcriber.resolvedPath (in_path file : String) : String :=
  if Transcriber.EXTENSIONS_REQUIRING_CONVERSION.contains (lowerStr (splitext file).2) then
    joinPath in_path ((splitext file).1 ++ ".mp3")
  else joinPath in_path file

/-- Concrete world for evaluating the embeddings: nothing exists yet, the
converter succeeds, and the model returns a text tagged with the path it was
invoked on. -/
def demoWorldOk : World :=
  { listing := [], fsFiles := [],
    ctime := fun _ => 0, mtime := fun _ => 0,
    convertOk := fun _ _ => true,
    transcribeRes := fun p _ => Except.ok ("text:" ++ p) }

/-- Concrete world in which the converter always exits nonzero and the model
always fails. -/
def demoWorldFail : World :=
  { listing := [], fsFiles := [],
    ctime := fun _ => 0, mtime := fun _ => 0,
    convertOk := fun _ _ => false,
    transcribeRes := fun _ _ => Except.error ("boom") }

/-- Concrete world in which the mp3 sibling of a.mkv already exists. -/
def demoWorldMp3 : World :=
  { listing := [], fsFiles := [("/in/a.mp3", "")],
    ctime := fun _ => 0, mtime := fun _ => 0,
    convertOk := fun _ _ => true,
    transcribeRes := fun p _ => Except.ok ("text:" ++ p) }

/-- Concrete world whose input folder holds three supported files and one
unsupported file. -/
def demoWorldBatch : World :=
  { listing := ["b.wav", "a_(2).wav", "c_(10).wav", "notes.txt"],
    fsFiles := [("/in/b.wav", ""), ("/in/a_(2).wav", ""),
                ("/in/c_(10).wav", ""), ("/in/notes.txt", "")],
    ctime := fun _ => 0, mtime := fun _ => 0,
    convertOk := fun _ _ => true,
    transcribeRes := fun p _ => Except.ok ("text:" ++ p) }

/-!
Helper lemmas about the traces and state of the embedded functions. These are
shared infrastructure for the claim theorems below.
-/

theorem startedFiles_append (a b : List Event) :
    startedFiles (a ++ b) = startedFiles a ++ startedFiles b := by
  simp [startedFiles]

theorem loadCount_append (a b : List Event) :
    loadCount (a ++ b) = loadCount a + loadCount b := by
  simp [loadCount]

theorem startedFiles_single_t (w : World) (f i o l : String) :
    startedFiles (Transcriber.transcribe_single_file w f i o l).2 = [f] := by
  simp only [Transcriber.transcribe_single_file, Transcriber.convert_to_mp3]
  repeat' split
  all_goals simp [startedFiles]

theorem startedFiles_single_w (w : World) (mn dev f i o l : String) :
    startedFiles (WhisperTranscriber.transcribe_single_file w mn dev f i o l).2 = [f] := by
  simp only [WhisperTranscriber.transcribe_single_file, WhisperTranscriber.convert_to_mp3]
  repeat' split
  all_goals simp [startedFiles]

theorem loadCount_single_t (w : World) (f i o l : String) :
    loadCount (Transcriber.transcribe_single_file w f i o l).2 = 0 := by
  simp only [Transcriber.transcribe_single_file, Transcriber.convert_to_mp3]
  repeat' split
  all_goals simp [loadCount]

theorem loadCount_single_w (w : World) (mn dev f i o l : String) :
    loadCount (WhisperTranscriber.transcribe_single_file w mn dev f i o l).2 = 1 := by
  simp only [WhisperTranscriber.transcribe_single_file, WhisperTranscriber.convert_to_mp3]
  repeat' split
  all_goals simp [loadCount]

theorem tr_preserved_single_t (w : World) (f i o l : String) :
    (Transcriber.transcribe_single_file w f i o l).1.transcribeRes = w.transcribeRes := by
  simp only [Transcriber.transcribe_single_file, Transcriber.convert_to_mp3]
  repeat' split
  all_goals rfl

theorem tr_preserved_single_w (w : World) (mn dev f i o l : String) :
    (WhisperTranscriber.transcribe_single_file w mn dev f i o l).1.transcribeRes = w.transcribeRes := by
  simp only [WhisperTranscriber.transcribe_single_file, WhisperTranscriber.convert_to_mp3]
  repeat' split
  all_goals rfl

theorem startedFiles_processFiles_t (w : World) (files : List String) (i o l : String) :
    startedFiles (Transcriber.processFiles w files i o l).2 = files := by
  induction files generalizing w with
  | nil => rfl
  | cons f rest ih =>
    simp only [Transcriber.processFiles]
    rw [startedFiles_append, startedFiles_single_t, ih]
    rfl

theorem startedFiles_processFiles_w (w : World) (files : List String) (mn dev i o l : String) :
    startedFiles (WhisperTranscriber.processFiles w files mn dev i o l).2 = files := by
  induction files generalizing w with
  | nil => rfl
  | cons f rest ih =>
    simp only [WhisperTranscriber.processFiles]
    rw [startedFiles_append, startedFiles_single_w, ih]
    rfl

theorem loadCount_processFiles_t (w : World) (files : List String) (i o l : String) :
    loadCount (Transcriber.processFiles w files i o l).2 = 0 := by
  induction files generalizing w with
  | nil => rfl
  | cons f rest ih =>
    simp only [Transcriber.processFiles]
    rw [loadCount_append, loadCount_single_t, ih]

theorem loadCount_processFiles_w (w : World) (files : List String) (mn dev i o l : String) :
    loadCount (WhisperTranscriber.processFiles w files mn dev i o l).2 = files.length := by
  induction files generalizing w with
  | nil => rfl
  | cons f rest ih =>
    simp only [WhisperTranscriber.processFiles]
    rw [loadCount_append, loadCount_single_w, ih]
    simp [List.length_cons]
    omega

theorem tr_preserved_processFiles_t (w : World) (files : List String) (i o l : String) :
    (Transcriber.processFiles w files i o l).1.transcribeRes = w.transcribeRes := by
  induction files generalizing w with
  | nil => rfl
  | cons f rest ih =>
    simp only [Transcriber.processFiles]
    rw [ih, tr_preserved_single_t]

theorem processFiles_append_t (w : World) (xs ys : List String) (i o l : String) :
    (Transcriber.processFiles w (xs ++ ys) i o l).2 =
      (Transcriber.processFiles w xs i o l).2 ++
        (Transcriber.processFiles (Transcriber.processFiles w xs i o l).1 ys i o l).2 := by
  induction xs generalizing w with
  | nil => simp [Transcriber.processFiles]
  | cons f rest ih =>
    simp only [List.cons_append, Transcriber.processFiles, List.append_eq]
    rw [ih]
    simp [List.append_assoc]

theorem error_logged_single_t (w : World) (f i o l msg : String)
    (hsup : Transcriber.EXTENSIONS_SUPPORTED.contains (lowerStr (splitext f).2) = true)
    (hfail : w.transcribeRes (Transcriber.resolvedPath i f) l = Except.error msg) :
    Event.transcribeError f msg ∈ (Transcriber.transcribe_single_file w f i o l).2 := by
  by_cases hc :
      Transcriber.EXTENSIONS_REQUIRING_CONVERSION.contains (lowerStr (splitext f).2) = true <;>
  by_cases he : w.existsPath (joinPath i ((splitext f).1 ++ ".mp3")) = true <;>
  by_cases hcv : w.convertOk (joinPath i f) (joinPath i ((splitext f).1 ++ ".mp3")) = true <;>
  simp_all [Transcriber.transcribe_single_file, Transcriber.convert_to_mp3,
    Transcriber.resolvedPath, World.createFile, World.writeFile]

theorem error_logged_single_w (w : World) (mn dev f i o l msg : String)
    (hsup : WhisperTranscriber.extensions.contains (lowerStr (splitext f).2) = true)
    (hfail : w.transcribeRes (joinPath i f) l = Except.error msg) :
    Event.transcribeError f msg ∈ (WhisperTranscriber.transcribe_single_file w mn dev f i o l).2 := by
  by_cases hc :
      WhisperTranscriber.unsupported_extensions.contains (lowerStr (splitext f).2) = true <;>
  by_cases he : w.existsPath (joinPath i ((splitext f).1 ++ ".mp3")) = true <;>
  by_cases hcv : w.convertOk (joinPath i f) (joinPath i ((splitext f).1 ++ ".mp3")) = true <;>
  simp_all [WhisperTranscriber.transcribe_single_file, WhisperTranscriber.convert_to_mp3,
    World.createFile, World.writeFile]

/-!
Claim theorems, one per claim of the specification review, with their
witnesses and counterexamples.
-/

theorem contains_iff {l : List String} {a : String} : l.contains a = true ↔ a ∈ l :=
  List.elem_iff

theorem conv_subset_supported :
    ∀ x ∈ Transcriber.EXTENSIONS_REQUIRING_CONVERSION, x ∈ Transcriber.EXTENSIONS_SUPPORTED := by
  decide

theorem whisper_extensions_eq :
    WhisperTranscriber.extensions = Transcriber.EXTENSIONS_SUPPORTED := rfl

theorem whisper_unsupported_eq :
    WhisperTranscriber.unsupported_extensions
      = Transcriber.EXTENSIONS_REQUIRING_CONVERSION := rfl

theorem loadCount_cons_load (m d : String) (evs : List Event) :
    loadCount (Event.loadModel m d :: evs) = loadCount evs + 1 := by
  simp [loadCount]

theorem sortKey5_pairwise_t (files : List String) :
    (Transcriber.sortCriterion5 files).Pairwise
      (fun a b => Transcriber.sortKey5 a ≤ Transcriber.sortKey5 b) := by
  unfold Transcriber.sortCriterion5
  refine List.Pairwise.imp ?_ (List.sorted_mergeSort ?_ ?_ files)
  · intro a b h
    exact of_decide_eq_true h
  · intro a b c hab hbc
    simp only [decide_eq_true_eq] at *
    exact le_trans hab hbc
  · intro a b
    simp only [Bool.or_eq_true, decide_eq_true_eq]
    exact le_total _ _

theorem orderedFiles_perm_t (w : World) (i c : String) :
    (Transcriber.orderedFiles w i c).Perm (Transcriber.filteredFiles w i) := by
  simp only [Transcriber.orderedFiles, Transcriber.sortCriterion5]
  repeat' split
  all_goals
    first
    | exact List.mergeSort_perm _ _
    | exact (List.reverse_perm _).trans ((List.mergeSort_perm _ _).trans (List.reverse_perm _))
    | exact List.Perm.refl _

theorem orderedFiles_perm_w (w : World) (i c : String) :
    (WhisperTranscriber.orderedFiles w i c).Perm (WhisperTranscriber.filteredFiles w i) := by
  simp only [WhisperTranscriber.orderedFiles, WhisperTranscriber.sortCriterion5]
  repeat' split
  all_goals
    first
    | exact List.mergeSort_perm _ _
    | exact (List.reverse_perm _).trans ((List.mergeSort_perm _ _).trans (List.reverse_perm _))
    | exact List.Perm.refl _

/-- C1: evaluation of both scripts on the conversion-subset file v.mkv in a
world where the conversion succeeds. transcriber.py invokes the model on the
derived mp3 sibling /in/v.mp3 and persists the returned text verbatim to the
derived output path, as the claim states; whisper_transcriber.py, because of
the reassignment at line 128, invokes the model on the original path
/in/v.mkv, not on the post-conversion path, so the claim fails for that
script. -/
theorem claim_c1_eval :
    transcribeCalls
        (Transcriber.transcribe_single_file demoWorldOk ("v.mkv") ("/in") ("/out") ("English")).2
      = [("/in/v.mp3", "English")] ∧
    (Transcriber.transcribe_single_file demoWorldOk ("v.mkv") ("/in") ("/out") ("English")).1.getContent
        ("/out/v.txt") = some ("text:/in/v.mp3") ∧
    transcribeCalls
        (WhisperTranscriber.transcribe_single_file demoWorldOk ("base") ("cpu") ("v.mkv") ("/in")
          ("/out") ("English")).2
      = [("/in/v.mkv", "English")] ∧
    (WhisperTranscriber.transcribe_single_file demoWorldOk ("base") ("cpu") ("v.mkv") ("/in")
        ("/out") ("English")).1.getContent ("/out/v.txt") = some ("text:/in/v.mkv") ∧
    ("/in/v.mkv") ≠ ("/in/v.mp3") := by
  decide

/-- C2: per-file failure isolation. For every world and every file list, the
dispatch loop announces and processes every file in order, whatever the
transcription oracle returns (first and third conjuncts hold for arbitrary
worlds, in particular ones that fail at any position N, so files N+1..end are
always processed); and when the transcription of the file at position n
fails, the failure is caught and a timestamped error report for that file
appears in the trace (second conjunct). -/
theorem claim_c2 (w : World) (files : List String) (i o l msg mn dev : String)
    (n : Nat) (hn : n < files.length)
    (hsup : Transcriber.EXTENSIONS_SUPPORTED.contains
      (lowerStr (splitext (files.get ⟨n, hn⟩)).2) = true)
    (hfail : w.transcribeRes (Transcriber.resolvedPath i (files.get ⟨n, hn⟩)) l
      = Except.error msg) :
    startedFiles (Transcriber.processFiles w files i o l).2 = files ∧
    Event.transcribeError (files.get ⟨n, hn⟩) msg ∈ (Transcriber.processFiles w files i o l).2 ∧
    startedFiles (WhisperTranscriber.processFiles w files mn dev i o l).2 = files := by
  refine ⟨startedFiles_processFiles_t w files i o l, ?_,
    startedFiles_processFiles_w w files mn dev i o l⟩
  set f0 := files.get ⟨n, hn⟩ with hf0
  obtain ⟨pre, suf, hpre⟩ : ∃ pre suf, files = pre ++ f0 :: suf := by
    refine ⟨files.take n, files.drop (n + 1), ?_⟩
    rw [hf0]
    conv_lhs => rw [← List.take_append_drop n files]
    congr 1
    rw [List.drop_eq_getElem_cons hn]
    simp
  rw [hpre, processFiles_append_t]
  apply List.mem_append.mpr
  right
  simp only [Transcriber.processFiles]
  apply List.mem_append.mpr
  left
  apply error_logged_single_t
  · exact hsup
  · rw [tr_preserved_processFiles_t]
    exact hfail

/-- C2 witness: in a world where every transcription fails, all three files
of the batch are still processed and the failure of the middle file is
logged. -/
theorem claim_c2_witness :
    startedFiles
        (Transcriber.processFiles demoWorldFail ["a.wav", "b.wav", "c.wav"] ("/in") ("/out")
          ("English")).2
      = ["a.wav", "b.wav", "c.wav"] ∧
    Event.transcribeError ("b.wav") ("boom") ∈
      (Transcriber.processFiles demoWorldFail ["a.wav", "b.wav", "c.wav"] ("/in") ("/out")
        ("English")).2 ∧
    startedFiles
        (WhisperTranscriber.processFiles demoWorldFail ["a.wav", "b.wav", "c.wav"] ("base")
          ("cpu") ("/in") ("/out") ("English")).2
      = ["a.wav", "b.wav", "c.wav"] :=
  claim_c2 demoWorldFail ["a.wav", "b.wav", "c.wav"] "/in" "/out" "English" "boom" "base" "cpu"
    1 (by decide) (by decide) rfl

/-- C3: under ordering criterion 5, the sorted sequence is a permutation of
the input; any file whose name lacks a parenthesized integer (key is the
positive-infinity sentinel) ends up after every file that has one; and among
files that have one the order is ascending by the numeric value of the
extracted integer. -/
theorem claim_c3 (files : List String) (i j : Nat) (a b : String)
    (ha : (Transcriber.sortCriterion5 files)[i]? = some a)
    (hb : (Transcriber.sortCriterion5 files)[j]? = some b) :
    (Transcriber.sortCriterion5 files).Perm files ∧
    (Transcriber.extract_number a = none →
      (Transcriber.extract_number b).isSome = true → j < i) ∧
    (∀ m n : Nat, i < j → Transcriber.extract_number a = some m →
      Transcriber.extract_number b = some n → m ≤ n) := by
  obtain ⟨hi, hgi⟩ := List.getElem?_eq_some_iff.mp ha
  obtain ⟨hj, hgj⟩ := List.getElem?_eq_some_iff.mp hb
  have hpw := sortKey5_pairwise_t files
  rw [List.pairwise_iff_getElem] at hpw
  refine ⟨?_, ?_, ?_⟩
  · unfold Transcriber.sortCriterion5
    exact List.mergeSort_perm _ _
  · intro hnone hsome
    rcases Nat.lt_trichotomy j i with h | h | h
    · exact h
    · exfalso
      subst h
      rw [hgi] at hgj
      subst hgj
      rw [hnone] at hsome
      simp at hsome
    · exfalso
      have hk := hpw i j hi hj h
      rw [hgi, hgj] at hk
      obtain ⟨m, hm⟩ := Option.isSome_iff_exists.mp hsome
      simp only [Transcriber.sortKey5, hnone, hm] at hk
      exact (WithTop.coe_ne_top (le_antisymm le_top hk)).elim
  · intro m n hij hm hn
    have hk := hpw i j hi hj hij
    rw [hgi, hgj] at hk
    simp only [Transcriber.sortKey5, hm, hn] at hk
    exact_mod_cast hk

/-- C3 witness: on a concrete list the sorted output is a permutation, the
numberless file lands after a numbered one (position 2 after position 0), and
the numeric values 2 and 10 appear in ascending order even though the string
comparison of their names would order them the other way. -/
theorem claim_c3_witness :
    (Transcriber.sortCriterion5 ["b.wav", "a_(2).wav", "c_(10).wav"]).Perm
      ["b.wav", "a_(2).wav", "c_(10).wav"] ∧ (0 : Nat) < 2 ∧ (2 : Nat) ≤ 10 := by
  have hsorted : Transcriber.sortCriterion5 ["b.wav", "a_(2).wav", "c_(10).wav"]
      = ["a_(2).wav", "c_(10).wav", "b.wav"] := by
    simp +decide [Transcriber.sortCriterion5, List.mergeSort]
  refine ⟨?_, ?_, ?_⟩
  · exact (claim_c3 ["b.wav", "a_(2).wav", "c_(10).wav"] 2 0 "b.wav" "a_(2).wav"
      (by rw [hsorted]; decide) (by rw [hsorted]; decide) ).1
  · exact (claim_c3 ["b.wav", "a_(2).wav", "c_(10).wav"] 2 0 "b.wav" "a_(2).wav"
      (by rw [hsorted]; decide) (by rw [hsorted]; decide) ).2.1 (by decide) (by decide)
  · exact (claim_c3 ["b.wav", "a_(2).wav", "c_(10).wav"] 0 1 "a_(2).wav" "c_(10).wav"
      (by rw [hsorted]; decide) (by rw [hsorted]; decide) ).2.2 2 10 (by decide) (by decide) (by decide)

/-- C4: for every directory listing and each of the six ordering criteria,
the sequence of files announced by the multi-file dispatcher is a permutation
of the filtered listing, and the filtered listing contains exactly the
regular files whose lowercased extension is in the supported allow-list; in
both scripts. -/
theorem claim_c4 (w : World) (i o l c mn dev : String)
    (hc : c ∈ ["1", "2", "3", "4", "5", "6"]) :
    (startedFiles (Transcriber.transcribe_multiple_files w i o l c).2).Perm
      (Transcriber.filteredFiles w i) ∧
    (∀ f, f ∈ Transcriber.filteredFiles w i ↔
      f ∈ w.listing ∧ w.isfile (joinPath i f) = true ∧
        lowerStr (splitext f).2 ∈ Transcriber.EXTENSIONS_SUPPORTED) ∧
    (startedFiles (WhisperTranscriber.transcribe_multiple_files w mn dev i o l c).2).Perm
      (WhisperTranscriber.filteredFiles w i) ∧
    (∀ f, f ∈ WhisperTranscriber.filteredFiles w i ↔
      f ∈ w.listing ∧ w.isfile (joinPath i f) = true ∧
        lowerStr (splitext f).2 ∈ WhisperTranscriber.extensions) := by
  refine ⟨?_, ?_, ?_, ?_⟩
  · rw [Transcriber.transcribe_multiple_files, startedFiles_processFiles_t]
    exact orderedFiles_perm_t w i c
  · intro f
    simp [Transcriber.filteredFiles, List.mem_filter, Bool.and_eq_true, contains_iff]
  · rw [WhisperTranscriber.transcribe_multiple_files, startedFiles_processFiles_w]
    exact orderedFiles_perm_w w i c
  · intro f
    simp [WhisperTranscriber.filteredFiles, List.mem_filter, Bool.and_eq_true, contains_iff]

/-- C4 witness: concrete instantiation at a four-entry listing under
criterion 5, for both scripts, plus the membership characterization at a
concrete file. -/
theorem claim_c4_witness :
    (startedFiles (Transcriber.transcribe_multiple_files demoWorldBatch ("/in") ("/out")
        ("English") ("5")).2).Perm (Transcriber.filteredFiles demoWorldBatch ("/in")) ∧
    (("b.wav") ∈ Transcriber.filteredFiles demoWorldBatch ("/in") ↔
      ("b.wav") ∈ demoWorldBatch.listing ∧
        demoWorldBatch.isfile (joinPath ("/in") ("b.wav")) = true ∧
        lowerStr (splitext ("b.wav")).2 ∈ Transcriber.EXTENSIONS_SUPPORTED) ∧
    (startedFiles (WhisperTranscriber.transcribe_multiple_files demoWorldBatch ("base") ("cpu")
        ("/in") ("/out") ("English") ("5")).2).Perm
      (WhisperTranscriber.filteredFiles demoWorldBatch ("/in")) := by
  have h := claim_c4 demoWorldBatch "/in" "/out" "English" "5" "base" "cpu" (by decide)
  exact ⟨h.1, h.2.1 "b.wav", h.2.2.1⟩

/-- C5: for a file of the conversion subset whose derived mp3 sibling
already exists, neither script invokes the converter; the decision is made
purely from the existence of the derived path. -/
theorem claim_c5 (w : World) (f i o l mn dev : String)
    (hconv : Transcriber.EXTENSIONS_REQUIRING_CONVERSION.contains
      (lowerStr (splitext f).2) = true)
    (hex : w.existsPath (joinPath i ((splitext f).1 ++ ".mp3")) = true) :
    convertCalls (Transcriber.transcribe_single_file w f i o l).2 = [] ∧
    convertCalls (WhisperTranscriber.transcribe_single_file w mn dev f i o l).2 = [] := by
  constructor <;>
  · simp only [Transcriber.transcribe_single_file, Transcriber.convert_to_mp3,
      WhisperTranscriber.transcribe_single_file, WhisperTranscriber.convert_to_mp3]
    repeat' split
    all_goals simp_all [convertCalls]

/-- C5 witness: with /in/a.mp3 already present, processing a.mkv performs no
converter invocation in either script. -/
theorem claim_c5_witness :
    convertCalls
        (Transcriber.transcribe_single_file demoWorldMp3 ("a.mkv") ("/in") ("/out")
          ("English")).2 = [] ∧
    convertCalls
        (WhisperTranscriber.transcribe_single_file demoWorldMp3 ("base") ("cpu") ("a.mkv")
          ("/in") ("/out") ("English")).2 = [] :=
  claim_c5 demoWorldMp3 "a.mkv" "/in" "/out" "English" "base" "cpu" (by decide) (by decide)

/-- C6 counterexample to the claim as stated: the claim says every nonzero
converter exit status is reported to the console in both scripts, but in
whisper_transcriber.py the subprocess runs unchecked, so at this concrete
failing invocation the trace of convert_to_mp3 contains no failure report and
does contain the completion message. -/
theorem claim_c6_counterexample :
    demoWorldFail.convertOk ("/in/v.mkv") ("/in/v.mp3") = false ∧
    convertErrors
        (WhisperTranscriber.convert_to_mp3 demoWorldFail ("/in/v.mkv") ("/in/v.mp3")).2 = [] ∧
    Event.convertDone ("/in/v.mkv") ("/in/v.mp3") ∈
      (WhisperTranscriber.convert_to_mp3 demoWorldFail ("/in/v.mkv") ("/in/v.mp3")).2 := by
  decide

/-- C6 amended: in transcriber.py a nonzero converter exit status is caught
and reported with a timestamped error, no exception escapes, no file is
written, and the subsequent transcription targets the nonexistent converted
path and fails in the transcription failure domain; in whisper_transcriber.py
the nonzero exit status goes undetected, a completion message is printed
instead of a failure report, and the transcription targets the original input
path. -/
theorem claim_c6_amended (w : World) (f i o l msg mn dev : String)
    (hconv : Transcriber.EXTENSIONS_REQUIRING_CONVERSION.contains
      (lowerStr (splitext f).2) = true)
    (hnm : w.existsPath (joinPath i ((splitext f).1 ++ ".mp3")) = false)
    (hcv : w.convertOk (joinPath i f) (joinPath i ((splitext f).1 ++ ".mp3")) = false)
    (htr : w.transcribeRes (joinPath i ((splitext f).1 ++ ".mp3")) l = Except.error msg)
    (htrw : w.transcribeRes (joinPath i f) l = Except.error msg) :
    (Transcriber.transcribe_single_file w f i o l).2 =
      [Event.startFile f,
       Event.convertCall (joinPath i f) (joinPath i ((splitext f).1 ++ ".mp3")),
       Event.convertError (joinPath i f) ("CalledProcessError"),
       Event.transcribeCall (joinPath i ((splitext f).1 ++ ".mp3")) l,
       Event.transcribeError f msg] ∧
    (Transcriber.transcribe_single_file w f i o l).1 = w ∧
    (WhisperTranscriber.transcribe_single_file w mn dev f i o l).2 =
      [Event.startFile f, Event.loadModel mn dev,
       Event.convertCall (joinPath i f) (joinPath i ((splitext f).1 ++ ".mp3")),
       Event.convertDone (joinPath i f) (joinPath i ((splitext f).1 ++ ".mp3")),
       Event.transcribeCall (joinPath i f) l,
       Event.transcribeError f msg] := by
  have hconv2 : lowerStr (splitext f).2 ∈ Transcriber.EXTENSIONS_REQUIRING_CONVERSION :=
    contains_iff.mp hconv
  have hsup2 : lowerStr (splitext f).2 ∈ Transcriber.EXTENSIONS_SUPPORTED :=
    conv_subset_supported _ hconv2
  refine ⟨?_, ?_, ?_⟩
  all_goals
    simp [Transcriber.transcribe_single_file, Transcriber.convert_to_mp3,
      WhisperTranscriber.transcribe_single_file, WhisperTranscriber.convert_to_mp3,
      whisper_extensions_eq, whisper_unsupported_eq,
      hsup2, hconv2, hnm, hcv, htr, htrw]

/-- C6 amended witness: concrete instantiation at v.mkv in a world where the
converter fails and transcription of any path fails. -/
theorem claim_c6_amended_witness :
    (Transcriber.transcribe_single_file demoWorldFail ("v.mkv") ("/in") ("/out") ("English")).2 =
      [Event.startFile ("v.mkv"),
       Event.convertCall ("/in/v.mkv") ("/in/v.mp3"),
       Event.convertError ("/in/v.mkv") ("CalledProcessError"),
       Event.transcribeCall ("/in/v.mp3") ("English"),
       Event.transcribeError ("v.mkv") ("boom")] ∧
    (Transcriber.transcribe_single_file demoWorldFail ("v.mkv") ("/in") ("/out")
      ("English")).1 = demoWorldFail ∧
    (WhisperTranscriber.transcribe_single_file demoWorldFail ("base") ("cpu") ("v.mkv") ("/in")
        ("/out") ("English")).2 =
      [Event.startFile ("v.mkv"), Event.loadModel ("base") ("cpu"),
       Event.convertCall ("/in/v.mkv") ("/in/v.mp3"),
       Event.convertDone ("/in/v.mkv") ("/in/v.mp3"),
       Event.transcribeCall ("/in/v.mkv") ("English"),
       Event.transcribeError ("v.mkv") ("boom")] := by
  have h := claim_c6_amended demoWorldFail "v.mkv" "/in" "/out" "English" "boom" "base" "cpu"
    (by decide) (by decide) rfl rfl rfl
  exact h

/-- C7: the output path is the output directory joined with the input stem
plus the txt suffix, meeting.wav under /out giving /out/meeting.txt; any two
inputs sharing a stem derive the same output path; and a second write to the
same path replaces the first content. -/
theorem claim_c7 (out_path f1 f2 p t1 t2 : String) (w : World)
    (hstem : (splitext f1).1 = (splitext f2).1) :
    txtPath ("/out") ("meeting.wav") = "/out/meeting.txt" ∧
    txtPath out_path f1 = txtPath out_path f2 ∧
    ((w.writeFile p t1).writeFile p t2).getContent p = some t2 := by
  refine ⟨by decide, ?_, ?_⟩
  · simp [txtPath, hstem]
  · simp [World.writeFile, World.getContent]

/-- C7 witness: meeting.wav and meeting.mp4 derive the same output path and
the second write wins. -/
theorem claim_c7_witness :
    txtPath ("/out") ("meeting.wav") = "/out/meeting.txt" ∧
    txtPath ("/out") ("meeting.wav") = txtPath ("/out") ("meeting.mp4") ∧
    ((demoWorldOk.writeFile ("/out/meeting.txt") ("first")).writeFile ("/out/meeting.txt")
      ("second")).getContent ("/out/meeting.txt") = some ("second") :=
  claim_c7 "/out" "meeting.wav" "meeting.mp4" "/out/meeting.txt" "first" "second" demoWorldOk
    (by decide)

/-- C8: extract_number applied to clip_(12).wav returns the integer 12 and
applied to clip.wav returns no value, in both scripts. -/
theorem claim_c8 :
    Transcriber.extract_number ("clip_(12).wav") = some 12 ∧
    Transcriber.extract_number ("clip.wav") = none ∧
    WhisperTranscriber.extract_number ("clip_(12).wav") = some 12 ∧
    WhisperTranscriber.extract_number ("clip.wav") = none := by
  decide

/-- C9: in transcriber.py the model is loaded exactly once per batch run,
before the dispatch over the folder; in whisper_transcriber.py the model is
reloaded once per file, so a batch of N files performs N loads. -/
theorem claim_c9 (w : World) (cuda : Bool) (answ mn i l o c : String) :
    loadCount (Transcriber.main_batch w cuda answ mn i l o c).2 = 1 ∧
    loadCount (WhisperTranscriber.main_batch w cuda answ mn i l o c).2 =
      (WhisperTranscriber.orderedFiles w i c).length := by
  constructor
  · simp only [Transcriber.main_batch, Transcriber.transcribe_multiple_files]
    rw [loadCount_cons_load, loadCount_processFiles_t]
  · simp only [WhisperTranscriber.main_batch, WhisperTranscriber.transcribe_multiple_files]
    exact loadCount_processFiles_w _ _ _ _ _ _ _

/-- C10: with a validated prompt answer, the selected device is cuda exactly
when a CUDA-compatible GPU is available and the user answered Y; in
particular answering Y on a machine without a CUDA GPU yields cpu (the
selection is a total function, no error path exists); in both scripts. -/
theorem claim_c10 (cuda : Bool) (answ : String)
    (hval : answ = "Y" ∨ answ = "N") :
    (Transcriber.deviceAfterChoice cuda answ = "cuda" ↔ cuda = true ∧ answ = "Y") ∧
    (cuda = false → Transcriber.deviceAfterChoice cuda answ = "cpu") ∧
    (WhisperTranscriber.deviceAfterChoice cuda answ = "cuda" ↔ cuda = true ∧ answ = "Y") ∧
    (cuda = false → WhisperTranscriber.deviceAfterChoice cuda answ = "cpu") := by
  rcases hval with h | h <;> subst h <;> cases cuda <;>
    simp [Transcriber.deviceAfterChoice, Transcriber.get_device,
      WhisperTranscriber.deviceAfterChoice, WhisperTranscriber.get_device]

/-- C10 witness: answering Y without a CUDA GPU selects cpu. -/
theorem claim_c10_witness :
    (Transcriber.deviceAfterChoice false ("Y") = "cuda" ↔ false = true ∧ ("Y") = "Y") ∧
    (false = false → Transcriber.deviceAfterChoice false ("Y") = "cpu") ∧
    (WhisperTranscriber.deviceAfterChoice false ("Y") = "cuda" ↔ false = true ∧ ("Y") = "Y") ∧
    (false = false → WhisperTranscriber.deviceAfterChoice false ("Y") = "cpu") :=
  claim_c10 false "Y" (Or.inl rfl)
